import Mathlib

/-!
Verification of the Astronomical Event Engine of `star-session-planner`
(`app/services/AstronomicalEvents.py` and `app/utilities/utils.py`).

The skyfield library calls (ephemeris loading, `find_discrete`,
`risings_and_settings`, `observe`) are external numerical collaborators;
they are modelled as inputs of an `Eph` record: the chronological
transition lists produced by `find_discrete` for the Sun, the Moon and
each planet, the apparent altitude/azimuth function (`get_alt_az` /
`observe`, fallible because an ephemeris lookup can raise), the Sun–Moon
elongation at the start-of-day instant, and the result of the
coordinate-to-timezone lookup.  Everything the repository itself computes
from those values (the per-planet scan of `visible_planets`, the nested
conjunction loops, the meteor-shower filter, the moon-phase mapping,
`get_sunrise_sunset` / `get_sun_info`, and the aggregation with its
exception behaviour) is embedded below and verified.

Instants are UTC seconds (`Int`).  Python `datetime` values are embedded
as `PyDateTime`: either naive or timezone-aware; Python raises `TypeError`
when a naive and an aware datetime are compared, and `AttributeError` when
an attribute such as `.tzinfo` or `.hour` is read from `None`; both are
modelled by `PyErr`.  Angles are rationals (degrees).
-/

/-- Python-level runtime errors relevant to the engine. -/
inductive PyErr where
  | attributeError : PyErr
  | typeError : PyErr
  | ephemerisError : PyErr
deriving DecidableEq

/-- UTC instant, in seconds. -/
abbrev Instant := Int

/-- A fixed-offset civil timezone (minutes east of UTC). -/
structure Tz where
  offsetMin : Int
deriving DecidableEq

/-- The five planets iterated by the engine, in source order. -/
inductive Planet where
  | mars | venus | jupiter | saturn | mercury
deriving DecidableEq, Fintype

/-- Display name used in the Python dictionaries and pair strings. -/
def Planet.pyName : Planet → String
  | .mars => "Mars"
  | .venus => "Venus"
  | .jupiter => "Jupiter"
  | .saturn => "Saturn"
  | .mercury => "Mercury"

/-- The planet iteration order fixed in the source:
Mars, Venus, Jupiter, Saturn, Mercury. -/
def planetsList : List Planet :=
  [.mars, .venus, .jupiter, .saturn, .mercury]

/-- A Python `datetime`: naive (bare UTC fields) or timezone-aware
(an aware value remembers its zone and the UTC instant it denotes). -/
inductive PyDateTime where
  | naive (sec : Instant)
  | aware (tz : Tz) (utcSec : Instant)
deriving DecidableEq

/-- Local clock seconds of a `PyDateTime` (what `.hour`/`.minute` read). -/
def PyDateTime.localSec : PyDateTime → Int
  | .naive s => s
  | .aware tz s => s + tz.offsetMin * 60

/-- The `.hour` field. -/
def PyDateTime.hour (d : PyDateTime) : Int :=
  (d.localSec.ediv 3600).emod 24

/-- The `.minute` field. -/
def PyDateTime.minute (d : PyDateTime) : Int :=
  (d.localSec.ediv 60).emod 60

/-- Python `<` on datetimes: naive with naive and aware with aware
compare; mixing naive and aware raises `TypeError`. -/
def dtLt : PyDateTime → PyDateTime → Except PyErr Bool
  | .naive a, .naive b => .ok (decide (a < b))
  | .aware _ a, .aware _ b => .ok (decide (a < b))
  | _, _ => .error .typeError

/-- Python `a < b` where `b` may be `None` (comparison with `None`
raises `TypeError`). -/
def pyLtOpt (a : PyDateTime) : Option PyDateTime → Except PyErr Bool
  | some b => dtLt a b
  | none => .error .typeError

/-- Python `a > b` where `b` may be `None`. -/
def pyGtOpt (a : PyDateTime) : Option PyDateTime → Except PyErr Bool
  | some b => dtLt b a
  | none => .error .typeError

/-- Python `x.tzinfo` where `x` may be `None`: reading the attribute of
`None` raises `AttributeError`; a naive datetime has `tzinfo = None`. -/
def tzinfoOf : Option PyDateTime → Except PyErr (Option Tz)
  | none => .error .attributeError
  | some (.naive _) => .ok none
  | some (.aware tz _) => .ok (some tz)

/-- `datetime.replace(tzinfo=UTC).astimezone(tz)`: the result is aware;
`astimezone(None)` falls back to the system timezone `sys`. -/
def astimezone (sec : Instant) (tz : Option Tz) (sys : Tz) : PyDateTime :=
  .aware (tz.getD sys) sec

/-- Abstract ephemeris/environment record: everything the engine reads
from skyfield, the loaded `de430.bsp` data and the timezone finder. -/
structure Eph where
  sunTrans : List (Instant × Bool)
  moonTrans : List (Instant × Bool)
  transF : Planet → Except PyErr (List (Instant × Bool))
  altaz : Planet → Instant → Except PyErr (Rat × Rat)
  elong : Rat
  tz : Option Tz

/-- One meteor-shower record of `meteor_showers.json`, with its start and
end dates as day ordinals. -/
structure MeteorShower where
  name : String
  startDate : Int
  endDate : Int
deriving DecidableEq

/-- The running `sunrise_utc` / `sunset_utc` (resp. `moonrise` / `moonset`)
pair of the source loops: each rise overwrites the first component, each
set the second, so the loop keeps the last transition of each kind. -/
def lastRiseSet (trans : List (Instant × Bool)) :
    Option Instant × Option Instant :=
  trans.foldl (fun acc x => if x.2 then (some x.1, acc.2) else (acc.1, some x.1))
    (none, none)

/-- `get_sunrise_sunset`: last Sun rise and set of the UTC day; if either
is missing the naive values (possibly `None`) are returned early, before
any timezone conversion; likewise when no timezone can be resolved the
naive UTC values are returned; otherwise both are converted to the local
zone (`astimezone`). -/
def get_sunrise_sunset (sunTrans : List (Instant × Bool)) (tz : Option Tz) :
    Option PyDateTime × Option PyDateTime :=
  match lastRiseSet sunTrans with
  | (some r, some s) =>
    match tz with
    | none => (some (.naive r), some (.naive s))
    | some z => (some (.aware z r), some (.aware z s))
  | (r?, s?) => (r?.map .naive, s?.map .naive)

/-- Skyfield's `MOON_PHASES` table (four labels). -/
def MOON_PHASES : List String :=
  ["New Moon", "First Quarter", "Full Moon", "Last Quarter"]

/-- Skyfield's `moon_phases` angle-to-index rule applied to the Sun–Moon
elongation in degrees: floor-divide by 90 and reduce mod 4 (Python `//`
and `%`, i.e. floor division and nonnegative remainder). -/
def moonPhaseIndex (elong : Rat) : Int :=
  ⌊elong / 90⌋ % 4

/-- `MOON_PHASES[moon_phases(self.eph)(t0)]`. -/
def moonPhaseLabel (elong : Rat) : String :=
  MOON_PHASES.getD (moonPhaseIndex elong).toNat ""

/-- The `moon_info` dictionary. -/
structure MoonInfo where
  moonrise : Option Instant
  moonset : Option Instant
  moon_phase : String
deriving DecidableEq

/-- `moon_info`: last moonrise and moonset of the day plus the phase label
at the start-of-day instant (`E.elong` is the Sun–Moon elongation there). -/
def moon_info (E : Eph) : MoonInfo :=
  ⟨(lastRiseSet E.moonTrans).1, (lastRiseSet E.moonTrans).2,
    moonPhaseLabel E.elong⟩

/-- The `sun_info` dictionary. -/
structure SunInfo where
  sunrise : String
  sunset : String
deriving DecidableEq

/-- Zero-padded two-digit rendering used by `f"{t.hour:02}"`. -/
def pad2 (n : Int) : String :=
  if n < 10 then "0" ++ toString n else toString n

/-- The `format_time` lambda of `get_sun_info`: reading `.hour` of `None`
raises `AttributeError`. -/
def format_time : Option PyDateTime → Except PyErr String
  | none => .error .attributeError
  | some t => .ok (pad2 t.hour ++ ":" ++ pad2 t.minute)

/-- `get_sun_info`: formats the (possibly missing) local sunrise and
sunset. -/
def get_sun_info (E : Eph) : Except PyErr SunInfo :=
  match format_time (get_sunrise_sunset E.sunTrans E.tz).1 with
  | .error e => .error e
  | .ok s1 =>
    match format_time (get_sunrise_sunset E.sunTrans E.tz).2 with
    | .error e => .error e
    | .ok s2 => .ok ⟨s1, s2⟩

/-- `check_meteor_showers`: keep the showers whose `[start, end]` range
contains the query date (the source compares parsed midnight datetimes
with `start_date <= date <= end_date`). -/
def check_meteor_showers (data : List MeteorShower) (date : Int) :
    List MeteorShower :=
  data.filter (fun sh => decide (sh.startDate ≤ date) && decide (date ≤ sh.endDate))

/-- One entry of the `visible_planets` list.  The dictionary values come
from loop variables of optional type, hence the `Option` fields. -/
structure Entry where
  planet : String
  rise_time : Option Instant
  set_time : Option Instant
  rise_altitude : Option Rat
  rise_azimuth : Option Rat
  set_altitude : Option Rat
  set_azimuth : Option Rat
deriving DecidableEq

/-- The mutable per-planet loop state of `visible_planets`
(lines 70–98 of the source). -/
structure ScanSt where
  rise_time : Option Instant
  set_time : Option Instant
  rise_altitude : Option Rat
  rise_azimuth : Option Rat
  set_altitude : Option Rat
  set_azimuth : Option Rat
deriving DecidableEq

/-- Initial loop state: all six variables `None`. -/
def initSt : ScanSt := ⟨none, none, none, none, none, none⟩

/-- One `if rise: ... else: ...` update of the loop state; `obs` is
`get_alt_az` for the current planet and may raise. -/
def updateSt (obs : Instant → Except PyErr (Rat × Rat)) (st : ScanSt)
    (t : Instant) (rise : Bool) : Except PyErr ScanSt :=
  match obs t with
  | .error e => .error e
  | .ok aa =>
    if rise then
      .ok ⟨some t, st.set_time, some aa.1, some aa.2, st.set_altitude, st.set_azimuth⟩
    else
      .ok ⟨st.rise_time, some t, st.rise_altitude, st.rise_azimuth, some aa.1, some aa.2⟩

/-- The visibility test of lines 81–87: read `sunrise_time.tzinfo`
(raises `AttributeError` when the sunrise is `None`), convert the rise
instant to that zone (system zone `sys` when `tzinfo` is `None`), then
evaluate `rise_time_aware < sunrise_time or rise_time_aware > sunset_time`
with Python's short-circuit and its `TypeError` on naive/aware mixes. -/
def visCond (sr ss : Option PyDateTime) (sys : Tz) (rt : Instant) :
    Except PyErr Bool :=
  match tzinfoOf sr with
  | .error e => .error e
  | .ok local_tz =>
    match pyLtOpt (astimezone rt local_tz sys) sr with
    | .error e => .error e
    | .ok true => .ok true
    | .ok false => pyGtOpt (astimezone rt local_tz sys) ss

/-- One iteration of the per-planet transition loop: update the state,
and when both a rise and a set have been recorded run the visibility
test, possibly emit an entry, and reset the rise/set variables. -/
def scanStep (pname : String) (obs : Instant → Except PyErr (Rat × Rat))
    (sr ss : Option PyDateTime) (sys : Tz) (st : ScanSt) (t : Instant)
    (rise : Bool) : Except PyErr (ScanSt × Option Entry) :=
  match updateSt obs st t rise with
  | .error e => .error e
  | .ok st1 =>
    match st1.rise_time, st1.set_time with
    | some rt, some stt =>
      match visCond sr ss sys rt with
      | .error e => .error e
      | .ok cond =>
        .ok (⟨none, none, st1.rise_altitude, st1.rise_azimuth,
               st1.set_altitude, st1.set_azimuth⟩,
             if cond then
               some ⟨pname, some rt, some stt, st1.rise_altitude,
                 st1.rise_azimuth, st1.set_altitude, st1.set_azimuth⟩
             else none)
    | _, _ => .ok (st1, none)

/-- The whole per-planet loop.  An exception anywhere in the loop body is
caught by the per-planet `except` clause: the entries appended before the
failure stay in the shared list and the planet's remaining transitions
are skipped (`continue`), so the result is the accumulated entries
together with the error that ended the loop, if any. -/
def planetScan (pname : String) (obs : Instant → Except PyErr (Rat × Rat))
    (sr ss : Option PyDateTime) (sys : Tz) :
    List (Instant × Bool) → ScanSt → List Entry × Option PyErr
  | [], _ => ([], none)
  | (t, r) :: rest, st =>
    match scanStep pname obs sr ss sys st t r with
    | .error e => ([], some e)
    | .ok (st1, ent?) =>
      let p := planetScan pname obs sr ss sys rest st1
      (ent?.toList ++ p.1, p.2)

/-- Contribution of one planet to `visible_planets`: a failure of the
`find_discrete` search itself (before any entry is produced) is also
caught by the per-planet `except` and yields nothing. -/
def planetVisible (E : Eph) (sr ss : Option PyDateTime) (sys : Tz)
    (p : Planet) : List Entry :=
  match E.transF p with
  | .error _ => []
  | .ok ts => (planetScan p.pyName (E.altaz p) sr ss sys ts initSt).1

/-- `visible_planets`: compute the local sunrise/sunset once, then run the
per-planet loop over the fixed planet list, every planet's body guarded
by the `try`/`except` that logs and continues. -/
def visible_planets (E : Eph) (sys : Tz) : List Entry :=
  planetsList.flatMap (fun p =>
    planetVisible E (get_sunrise_sunset E.sunTrans E.tz).1
      (get_sunrise_sunset E.sunTrans E.tz).2 sys p)

/-- Replace one planet's transition search by an empty (successful)
search, leaving everything else unchanged; used to state that a failing
planet contributes exactly nothing. -/
def clearPlanet (E : Eph) (p : Planet) : Eph :=
  ⟨E.sunTrans, E.moonTrans,
    fun q => if q = p then .ok [] else E.transF q,
    E.altaz, E.elong, E.tz⟩

/-- The `f"{planet1_name}-{planet2_name}"` conjunction tag. -/
def pairName (p1 p2 : Planet) : String :=
  p1.pyName ++ "-" ++ p2.pyName

/-- The inner planet loop of `check_conjunctions`: skip the self pair,
observe both planets (either observation may raise, uncaught), and append
the pair when both coordinate differences are below one degree. -/
def conjInner (E : Eph) (t : Instant) (p1 : Planet) :
    List Planet → Except PyErr (List (String × Instant))
  | [] => .ok []
  | p2 :: rest =>
    if p1 = p2 then conjInner E t p1 rest
    else
      match E.altaz p1 t with
      | .error e => .error e
      | .ok a1 =>
        match E.altaz p2 t with
        | .error e => .error e
        | .ok a2 =>
          match conjInner E t p1 rest with
          | .error e => .error e
          | .ok l =>
            .ok ((if |a1.1 - a2.1| < 1 ∧ |a1.2 - a2.2| < 1 then
                    [(pairName p1 p2, t)]
                  else []) ++ l)

/-- The outer planet loop of `check_conjunctions`. -/
def conjOuter (E : Eph) (t : Instant) :
    List Planet → Except PyErr (List (String × Instant))
  | [] => .ok []
  | p1 :: rest =>
    match conjInner E t p1 planetsList with
    | .error e => .error e
    | .ok l1 =>
      match conjOuter E t rest with
      | .error e => .error e
      | .ok l2 => .ok (l1 ++ l2)

/-- The time loop of `check_conjunctions`: Sun-set instants are skipped
(`if not rise: continue`); only Sun-rise instants are sampled. -/
def conjTimes (E : Eph) :
    List (Instant × Bool) → Except PyErr (List (String × Instant))
  | [] => .ok []
  | (t, r) :: rest =>
    if r then
      match conjOuter E t planetsList with
      | .error e => .error e
      | .ok l1 =>
        match conjTimes E rest with
        | .error e => .error e
        | .ok l2 => .ok (l1 ++ l2)
    else conjTimes E rest

/-- `check_conjunctions`: sample the Sun's rise/set transitions of the
day; no exception handling surrounds the loops. -/
def check_conjunctions (E : Eph) : Except PyErr (List (String × Instant)) :=
  conjTimes E E.sunTrans

/-- The angular-proximity predicate of the detector, over a total
altitude/azimuth assignment `A`. -/
def closeB (A : Planet → Instant → Rat × Rat) (p1 p2 : Planet)
    (t : Instant) : Prop :=
  |(A p1 t).1 - (A p2 t).1| < 1 ∧ |(A p1 t).2 - (A p2 t).2| < 1

instance (A : Planet → Instant → Rat × Rat) (p1 p2 : Planet) (t : Instant) :
    Decidable (closeB A p1 p2 t) := by
  unfold closeB; infer_instance

/-- Pure form of the inner loop when no observation fails. -/
def pureInner (A : Planet → Instant → Rat × Rat) (t : Instant) (p1 : Planet)
    (ps : List Planet) : List (String × Instant) :=
  ps.flatMap (fun p2 =>
    if p1 = p2 then []
    else if closeB A p1 p2 t then [(pairName p1 p2, t)] else [])

/-- Pure form of the outer loop when no observation fails. -/
def pureOuter (A : Planet → Instant → Rat × Rat) (t : Instant)
    (ps : List Planet) : List (String × Instant) :=
  ps.flatMap (fun p1 => pureInner A t p1 planetsList)

/-- Pure form of the whole detector when no observation fails. -/
def pureConj (A : Planet → Instant → Rat × Rat)
    (ts : List (Instant × Bool)) : List (String × Instant) :=
  ts.flatMap (fun x => if x.2 then pureOuter A x.1 planetsList else [])

/-- The aggregate result dictionary. -/
structure Events where
  visible_planets : List Entry
  conjunctions : List (String × Instant)
  meteor_showers : List MeteorShower
  moon_info : MoonInfo
  sun_info : SunInfo
deriving DecidableEq

/-- `get_astronomical_events`: build the dictionary, evaluating the five
sub-computations in source order; `visible_planets` cannot raise (its
loop body is guarded), while an exception escaping `check_conjunctions`
or `get_sun_info` propagates to the caller. -/
def get_astronomical_events (E : Eph) (data : List MeteorShower)
    (date : Int) (sys : Tz) : Except PyErr Events :=
  match check_conjunctions E with
  | .error e => .error e
  | .ok cj =>
    match get_sun_info E with
    | .error e => .error e
    | .ok si =>
      .ok ⟨visible_planets E sys, cj, check_meteor_showers data date,
        moon_info E, si⟩

/-- Modelled from the spec: the eight-label moon-phase table the spec
describes (the source instead uses skyfield's four-label table). -/
def MOON_PHASES8 : List String :=
  ["New Moon", "Waxing Crescent", "First Quarter", "Waxing Gibbous",
   "Full Moon", "Waning Gibbous", "Last Quarter", "Waning Crescent"]

/-- Modelled from the spec: the 45°-wide sector mapping of the Sun–Moon
elongation, centered so that 0° lies in the middle of the "New Moon"
sector and 180° in the middle of "Full Moon". -/
def specPhase8 (elong : Rat) : String :=
  MOON_PHASES8.getD ((⌊(elong + 45 / 2) / 45⌋ % 8).toNat) ""

/-- UTC zone object for concrete instances. -/
def tz0 : Tz := ⟨0⟩

/-- An arbitrary system timezone for the `astimezone(None)` fallback. -/
def sysTz : Tz := ⟨120⟩

/-- Concrete polar-day environment: the Sun's altitude predicate is
constant over the whole UTC day, so `find_discrete` returns zero
transitions for the Sun. -/
def EPolar : Eph :=
  ⟨[], [], fun _ => .ok [], fun _ _ => .ok (0, 0), 0, some tz0⟩

/-- Concrete environment in which observing Mars raises an ephemeris
exception while every other body behaves; the Sun rises at 06:00 UTC. -/
def EMarsFails : Eph :=
  ⟨[(21600, true)], [], fun _ => .ok [],
    fun p _ => if p = Planet.mars then .error .ephemerisError else .ok (0, 0),
    0, some tz0⟩

/-- Concrete environment for the visibility filter: Sun rises 06:00 and
sets 18:00 UTC (zone UTC), every planet rises 12:00 (inside the daytime
window) and sets 23:00 (after sunset). -/
def ESetOnly : Eph :=
  ⟨[(21600, true), (64800, false)], [],
    fun _ => .ok [(43200, true), (82800, false)],
    fun _ _ => .ok (0, 0), 0, some tz0⟩

/-- Concrete environment in which all planets share identical
altitude/azimuth at the sampled Sun-rise instant 06:00 UTC. -/
def EAllClose : Eph :=
  ⟨[(21600, true)], [], fun _ => .ok [], fun _ _ => .ok (0, 0), 0, some tz0⟩

/-- The total altitude/azimuth assignment underlying `EAllClose`. -/
def AllZero : Planet → Instant → Rat × Rat := fun _ _ => (0, 0)

/-- Concrete environment with an unresolvable timezone: the Sun rises and
sets, and every planet has a rise and a set transition. -/
def ENoTz : Eph :=
  ⟨[(21600, true), (64800, false)], [],
    fun _ => .ok [(3600, true), (7200, false)],
    fun _ _ => .ok (0, 0), 0, none⟩

/-- The conjunction list of `EAllClose` (total, for stating membership). -/
def conjListAllClose : List (String × Instant) :=
  (check_conjunctions EAllClose).toOption.getD []

/-- Concrete environment in which the rise/set search for Mars raises
while the other planets rise at 01:00 and set at 23:00 UTC. -/
def EFindFails : Eph :=
  ⟨[(21600, true), (64800, false)], [],
    fun p => if p = Planet.mars then .error .ephemerisError
             else .ok [(3600, true), (82800, false)],
    fun _ _ => .ok (0, 0), 0, some tz0⟩

/-- Membership in the meteor-shower result is exactly range containment. -/
theorem mem_check_meteor_showers (data : List MeteorShower)
    (sh : MeteorShower) (d : Int) :
    sh ∈ check_meteor_showers data d ↔
      sh ∈ data ∧ sh.startDate ≤ d ∧ d ≤ sh.endDate := by
  simp [check_meteor_showers, List.mem_filter]

/-- C9: for every query date and every shower record in the loaded
calendar, the shower is included when the query date equals the shower's
start or end date (inclusive boundaries), and excluded one day before the
start or one day after the end. -/
theorem C9_meteor_shower_boundaries (data : List MeteorShower)
    (sh : MeteorShower) (d : Int) (hmem : sh ∈ data)
    (hwf : sh.startDate ≤ sh.endDate) :
    ((d = sh.startDate ∨ d = sh.endDate) → sh ∈ check_meteor_showers data d)
    ∧ ((d = sh.startDate - 1 ∨ d = sh.endDate + 1) →
        sh ∉ check_meteor_showers data d) := by
  constructor
  · intro h
    rw [mem_check_meteor_showers]
    rcases h with h | h <;> subst h <;> exact ⟨hmem, by omega, by omega⟩
  · intro h hin
    rw [mem_check_meteor_showers] at hin
    rcases h with h | h <;> subst h <;> omega

/-- C9 witness: concrete shower calendar evaluated at its boundaries. -/
theorem C9_meteor_shower_boundaries_witness :
    (⟨"Perseids", 100, 138⟩ : MeteorShower) ∈ [(⟨"Perseids", 100, 138⟩ : MeteorShower)]
    ∧ ((100 : Int) ≤ 138)
    ∧ (⟨"Perseids", 100, 138⟩ : MeteorShower) ∈
        check_meteor_showers [⟨"Perseids", 100, 138⟩] 100
    ∧ (⟨"Perseids", 100, 138⟩ : MeteorShower) ∉
        check_meteor_showers [⟨"Perseids", 100, 138⟩] 139 := by
  refine ⟨by decide, by decide, ?_, ?_⟩
  · exact (C9_meteor_shower_boundaries [⟨"Perseids", 100, 138⟩]
      ⟨"Perseids", 100, 138⟩ 100 (by decide) (by decide)).1 (Or.inl rfl)
  · exact (C9_meteor_shower_boundaries [⟨"Perseids", 100, 138⟩]
      ⟨"Perseids", 100, 138⟩ 139 (by decide) (by decide)).2 (Or.inr rfl)


/-- C2: on a date with zero Sun transitions (polar day/night) the
aggregate call raises `AttributeError` instead of returning a result with
five fields: `get_sun_info` formats the missing sunrise, reading `.hour`
of `None`. -/
theorem C2_polar_raises :
    get_astronomical_events EPolar [] 0 sysTz = .error .attributeError := rfl

/-- C8: on a polar day/night (zero Sun transitions) `get_sun_info` does
not degrade to null fields: it raises `AttributeError`. -/
theorem C8_sun_info_raises :
    get_sun_info EPolar = .error .attributeError := rfl

/-- C1 counterexample: an ephemeris failure for a single body (Mars)
inside `check_conjunctions` is not caught anywhere and propagates out of
`get_astronomical_events`, aborting the whole request. -/
theorem C1_counterexample :
    get_astronomical_events EMarsFails [] 0 sysTz = .error .ephemerisError := rfl

/-- C4 counterexample: a planet that rises at 12:00 local (inside the
06:00–18:00 daytime window) and sets at 23:00 (after sunset, as the
code's own comparison confirms) is **not** included in
`visible_planets`: only the rise instant is tested. -/
theorem C4_counterexample :
    ESetOnly.transF Planet.mars = .ok [(43200, true), (82800, false)]
    ∧ pyGtOpt (astimezone 82800 (some tz0) sysTz)
        (get_sunrise_sunset ESetOnly.sunTrans ESetOnly.tz).2 = .ok true
    ∧ visible_planets ESetOnly sysTz = [] := ⟨rfl, rfl, rfl⟩

/-- C7 counterexample: with no resolvable timezone, a planet with both a
rise and a set transition is silently dropped (the aware/naive comparison
raises `TypeError`, caught per planet), so `visible_planets` is empty
instead of including all candidate planets. -/
theorem C7_counterexample :
    ENoTz.tz = none
    ∧ ENoTz.transF Planet.mars = .ok [(3600, true), (7200, false)]
    ∧ visible_planets ENoTz sysTz = [] := ⟨rfl, rfl, rfl⟩


/-- List membership under an `if … then l else []`. -/
theorem mem_ite_nil_right {α : Type} {c : Prop} [Decidable c] {x : α}
    {l : List α} : x ∈ (if c then l else []) ↔ c ∧ x ∈ l := by
  by_cases h : c <;> simp [h]

/-- List membership in the inner-loop contribution of one planet pair. -/
theorem mem_pair_ite {α : Type} {c d : Prop} [Decidable c] [Decidable d]
    {x y : α} :
    x ∈ (if c then ([] : List α) else if d then [y] else []) ↔
      ¬c ∧ d ∧ x = y := by
  by_cases hc : c <;> by_cases hd : d <;> simp [hc, hd]

/-- When no observation fails, the inner conjunction loop succeeds with
its pure value. -/
theorem conjInner_ok (E : Eph) (A : Planet → Instant → Rat × Rat)
    (hA : ∀ p t, E.altaz p t = .ok (A p t)) (t : Instant) (p1 : Planet)
    (ps : List Planet) :
    conjInner E t p1 ps = .ok (pureInner A t p1 ps) := by
  induction ps with
  | nil => rfl
  | cons p2 rest ih =>
    by_cases h : p1 = p2
    · subst h
      simpa [conjInner, pureInner, List.flatMap_cons] using ih
    · simp [conjInner, pureInner, h, hA, ih, List.flatMap_cons, closeB]

/-- When no observation fails, the outer conjunction loop succeeds with
its pure value. -/
theorem conjOuter_ok (E : Eph) (A : Planet → Instant → Rat × Rat)
    (hA : ∀ p t, E.altaz p t = .ok (A p t)) (t : Instant)
    (ps : List Planet) :
    conjOuter E t ps = .ok (pureOuter A t ps) := by
  induction ps with
  | nil => rfl
  | cons p1 rest ih =>
    simp [conjOuter, pureOuter, conjInner_ok E A hA, ih, List.flatMap_cons]

/-- When no observation fails, the whole detector succeeds with its pure
value. -/
theorem conjTimes_ok (E : Eph) (A : Planet → Instant → Rat × Rat)
    (hA : ∀ p t, E.altaz p t = .ok (A p t)) (ts : List (Instant × Bool)) :
    conjTimes E ts = .ok (pureConj A ts) := by
  induction ts with
  | nil => rfl
  | cons x rest ih =>
    obtain ⟨t, r⟩ := x
    cases r
    · simpa [conjTimes, pureConj, List.flatMap_cons] using ih
    · simp [conjTimes, pureConj, conjOuter_ok E A hA, ih, List.flatMap_cons]

/-- When no observation fails, `check_conjunctions` succeeds with the
pure sampled value. -/
theorem check_conjunctions_ok (E : Eph) (A : Planet → Instant → Rat × Rat)
    (hA : ∀ p t, E.altaz p t = .ok (A p t)) :
    check_conjunctions E = .ok (pureConj A E.sunTrans) :=
  conjTimes_ok E A hA E.sunTrans

/-- Membership in the pure inner loop. -/
theorem mem_pureInner_iff {A : Planet → Instant → Rat × Rat} {t : Instant}
    {p1 : Planet} {ps : List Planet} {x : String × Instant} :
    x ∈ pureInner A t p1 ps ↔
      ∃ p2, p2 ∈ ps ∧ p1 ≠ p2 ∧ closeB A p1 p2 t ∧ x = (pairName p1 p2, t) := by
  simp [pureInner, List.mem_flatMap, mem_pair_ite]

/-- Membership in the conjunction list is exactly: a Sun-rise sampling
instant, an ordered pair of distinct planets, and both coordinate
differences below one degree. -/
theorem mem_pureConj_iff {A : Planet → Instant → Rat × Rat}
    {ts : List (Instant × Bool)} {s : String} {τ : Instant} :
    (s, τ) ∈ pureConj A ts ↔
      ∃ p1 p2, p1 ∈ planetsList ∧ p2 ∈ planetsList ∧ p1 ≠ p2 ∧
        (τ, true) ∈ ts ∧ closeB A p1 p2 τ ∧ s = pairName p1 p2 := by
  unfold pureConj pureOuter
  simp only [List.mem_flatMap, mem_ite_nil_right, mem_pureInner_iff]
  constructor
  · rintro ⟨⟨t, r⟩, htr, hr, p1, hp1, p2, hp2, hne, hcl, hx⟩
    rw [Prod.mk.injEq] at hx
    obtain ⟨hs, hτ⟩ := hx
    subst hs hτ
    simp only at hr
    subst hr
    exact ⟨p1, p2, hp1, hp2, hne, htr, hcl, rfl⟩
  · rintro ⟨p1, p2, hp1, hp2, hne, hτ, hcl, hs⟩
    subst hs
    exact ⟨(τ, true), hτ, rfl, p1, hp1, p2, hp2, hne, hcl, rfl⟩

/-- The `"A-B"` pair tags are injective over the five planets. -/
theorem pairName_inj (p1 p2 q1 q2 : Planet)
    (h : pairName p1 p2 = pairName q1 q2) : p1 = q1 ∧ p2 = q2 := by
  revert h
  cases p1 <;> cases p2 <;> cases q1 <;> cases q2 <;> decide

/-- C5: `check_conjunctions` emits `(A, B, t)` exactly when `t` is an
instant at which the Sun rises during the day (Sun-set instants are never
sampled, so a day with no Sun rise yields an empty list), `A` and `B` are
distinct planets of the fixed five, and both the altitude difference and
the azimuth difference at `t` are below one degree; stated for any
environment whose observations all succeed with values `A`. -/
theorem C5_conjunction_characterization (E : Eph)
    (A : Planet → Instant → Rat × Rat)
    (hA : ∀ p t, E.altaz p t = .ok (A p t)) :
    check_conjunctions E = .ok (pureConj A E.sunTrans)
    ∧ (∀ s τ, ((s, τ) ∈ pureConj A E.sunTrans ↔
        ∃ p1 p2, p1 ∈ planetsList ∧ p2 ∈ planetsList ∧ p1 ≠ p2 ∧
          (τ, true) ∈ E.sunTrans ∧
          |(A p1 τ).1 - (A p2 τ).1| < 1 ∧ |(A p1 τ).2 - (A p2 τ).2| < 1 ∧
          s = pairName p1 p2))
    ∧ ((∀ x ∈ E.sunTrans, x.2 = false) → pureConj A E.sunTrans = []) := by
  refine ⟨check_conjunctions_ok E A hA, ?_, ?_⟩
  · intro s τ
    rw [mem_pureConj_iff]
    constructor
    · rintro ⟨p1, p2, hp1, hp2, hne, ht, hcl, hs⟩
      exact ⟨p1, p2, hp1, hp2, hne, ht, hcl.1, hcl.2, hs⟩
    · rintro ⟨p1, p2, hp1, hp2, hne, ht, hc1, hc2, hs⟩
      exact ⟨p1, p2, hp1, hp2, hne, ht, ⟨hc1, hc2⟩, hs⟩
  · intro hall
    unfold pureConj
    rw [List.flatMap_eq_nil_iff]
    intro x hx
    simp [hall x hx]

/-- C5 witness: a concrete environment with total observations, applied
to the characterization. -/
theorem C5_conjunction_characterization_witness :
    (∀ p t, EAllClose.altaz p t = .ok (AllZero p t))
    ∧ check_conjunctions EAllClose = .ok (pureConj AllZero EAllClose.sunTrans) :=
  ⟨fun _ _ => rfl,
    (C5_conjunction_characterization EAllClose AllZero (fun _ _ => rfl)).1⟩

/-- C6 counterexample: with all five planets at identical coordinates at
the sampled Sun-rise instant, the conjunction list contains both the
`(Mars, Venus)` and the `(Venus, Mars)` entry for the same instant. -/
theorem C6_counterexample :
    ("Mars-Venus", (21600 : Instant)) ∈ conjListAllClose
    ∧ ("Venus-Mars", (21600 : Instant)) ∈ conjListAllClose := by
  have hok : check_conjunctions EAllClose =
      .ok (pureConj AllZero EAllClose.sunTrans) :=
    check_conjunctions_ok EAllClose AllZero (fun _ _ => rfl)
  have hl : conjListAllClose = pureConj AllZero EAllClose.sunTrans := by
    simp [conjListAllClose, hok, Except.toOption]
  rw [hl]
  constructor
  · rw [mem_pureConj_iff]
    refine ⟨Planet.mars, Planet.venus, by simp [planetsList], by simp [planetsList],
      by decide, by simp [EAllClose], ?_, rfl⟩
    constructor <;> simp [closeB, AllZero]
  · rw [mem_pureConj_iff]
    refine ⟨Planet.venus, Planet.mars, by simp [planetsList], by simp [planetsList],
      by decide, by simp [EAllClose], ?_, rfl⟩
    constructor <;> simp [closeB, AllZero]

/-- C6 amended: the detector checks and reports both orders of every
unordered pair, so an entry for `(A, B)` at `t` is in the list exactly
when the mirrored entry for `(B, A)` at `t` is. -/
theorem C6_both_directions (E : Eph) (A : Planet → Instant → Rat × Rat)
    (hA : ∀ p t, E.altaz p t = .ok (A p t)) (p1 p2 : Planet) (t : Instant)
    (l : List (String × Instant)) (hl : check_conjunctions E = .ok l) :
    ((pairName p1 p2, t) ∈ l ↔ (pairName p2 p1, t) ∈ l) := by
  have hok := check_conjunctions_ok E A hA
  rw [hok] at hl
  obtain rfl : pureConj A E.sunTrans = l := by
    cases hl; rfl
  constructor
  · rw [mem_pureConj_iff, mem_pureConj_iff]
    rintro ⟨q1, q2, hq1, hq2, hne, ht, hcl, hs⟩
    obtain ⟨rfl, rfl⟩ := pairName_inj p1 p2 q1 q2 hs
    exact ⟨p2, p1, hq2, hq1, fun hh => hne hh.symm,
      ht, ⟨by rw [abs_sub_comm]; exact hcl.1, by rw [abs_sub_comm]; exact hcl.2⟩, rfl⟩
  · rw [mem_pureConj_iff, mem_pureConj_iff]
    rintro ⟨q1, q2, hq1, hq2, hne, ht, hcl, hs⟩
    obtain ⟨rfl, rfl⟩ := pairName_inj p2 p1 q1 q2 hs
    exact ⟨p1, p2, hq2, hq1, fun hh => hne hh.symm,
      ht, ⟨by rw [abs_sub_comm]; exact hcl.1, by rw [abs_sub_comm]; exact hcl.2⟩, rfl⟩

/-- C6 amended witness: the mirrored-membership equivalence at a concrete
environment, pair and instant. -/
theorem C6_both_directions_witness :
    ((pairName Planet.mars Planet.venus, (21600 : Instant)) ∈
        pureConj AllZero EAllClose.sunTrans
      ↔ (pairName Planet.venus Planet.mars, (21600 : Instant)) ∈
        pureConj AllZero EAllClose.sunTrans) :=
  C6_both_directions EAllClose AllZero (fun _ _ => rfl) Planet.mars
    Planet.venus 21600 (pureConj AllZero EAllClose.sunTrans)
    (check_conjunctions_ok EAllClose AllZero (fun _ _ => rfl))

/-- The floor sector of the elongation: if `k*90 ≤ e < (k+1)*90` then the
phase index is `k % 4`. -/
theorem moonPhaseIndex_eq_of (e : Rat) (k : Int) (h1 : (k : Rat) * 90 ≤ e)
    (h2 : e < ((k : Rat) + 1) * 90) : moonPhaseIndex e = k % 4 := by
  unfold moonPhaseIndex
  congr 1
  rw [Int.floor_eq_iff]
  constructor
  · rw [le_div_iff₀ (by norm_num : (0 : Rat) < 90)]
    exact h1
  · rw [div_lt_iff₀ (by norm_num : (0 : Rat) < 90)]
    exact h2

/-- C3 amended: the phase label is one of skyfield's **four** canonical
labels obtained by splitting the elongation circle into 90°-wide floor
sectors (`[0°,90°) ↦ New Moon`, `[90°,180°) ↦ First Quarter`,
`[180°,270°) ↦ Full Moon`, `[270°,360°) ↦ Last Quarter`); elongation 0°
maps to "New Moon" and 180° to "Full Moon", and every elongation maps to
exactly one of the four labels (the mapping is a total function into the
table). -/
theorem C3_moon_phase_four_sectors :
    (∀ e : Rat, moonPhaseLabel e ∈ MOON_PHASES)
    ∧ (∀ e : Rat, 0 ≤ e → e < 90 → moonPhaseLabel e = "New Moon")
    ∧ (∀ e : Rat, 90 ≤ e → e < 180 → moonPhaseLabel e = "First Quarter")
    ∧ (∀ e : Rat, 180 ≤ e → e < 270 → moonPhaseLabel e = "Full Moon")
    ∧ (∀ e : Rat, 270 ≤ e → e < 360 → moonPhaseLabel e = "Last Quarter") := by
  have hsector : ∀ (e : Rat) (k : Int), (k : Rat) * 90 ≤ e →
      e < ((k : Rat) + 1) * 90 → moonPhaseLabel e =
        MOON_PHASES.getD (k % 4).toNat "" := by
    intro e k h1 h2
    rw [moonPhaseLabel, moonPhaseIndex_eq_of e k h1 h2]
  refine ⟨?_, ?_, ?_, ?_, ?_⟩
  · intro e
    have h0 : 0 ≤ moonPhaseIndex e % 4 := by
      unfold moonPhaseIndex
      omega
    have h4 : moonPhaseIndex e % 4 < 4 := by
      unfold moonPhaseIndex
      omega
    unfold moonPhaseLabel
    have hmod : moonPhaseIndex e = moonPhaseIndex e % 4 := by
      unfold moonPhaseIndex
      omega
    rw [hmod]
    have : (moonPhaseIndex e % 4).toNat = 0 ∨ (moonPhaseIndex e % 4).toNat = 1
        ∨ (moonPhaseIndex e % 4).toNat = 2 ∨ (moonPhaseIndex e % 4).toNat = 3 := by
      omega
    rcases this with h | h | h | h <;> rw [h] <;> simp [MOON_PHASES]
  · intro e hl hr
    rw [hsector e 0 (by push_cast; linarith) (by push_cast; linarith)]
    rfl
  · intro e hl hr
    rw [hsector e 1 (by push_cast; linarith) (by push_cast; linarith)]
    rfl
  · intro e hl hr
    rw [hsector e 2 (by push_cast; linarith) (by push_cast; linarith)]
    rfl
  · intro e hl hr
    rw [hsector e 3 (by push_cast; linarith) (by push_cast; linarith)]
    rfl

/-- C3 witness: the amended sector mapping evaluated at elongations 0°
and 180°. -/
theorem C3_moon_phase_four_sectors_witness :
    (0 : Rat) ≤ 0 ∧ (0 : Rat) < 90 ∧ (180 : Rat) ≤ 180 ∧ (180 : Rat) < 270
    ∧ moonPhaseLabel 0 = "New Moon" ∧ moonPhaseLabel 180 = "Full Moon" :=
  ⟨le_refl 0, by norm_num, le_refl 180, by norm_num,
    C3_moon_phase_four_sectors.2.1 0 (le_refl 0) (by norm_num),
    C3_moon_phase_four_sectors.2.2.2.1 180 (le_refl 180) (by norm_num)⟩

/-- C3 counterexample: at elongation 45° the code's phase label (from
skyfield's four 90°-wide floor sectors) is "New Moon", while the spec's
eight 45°-wide centered sectors give "Waxing Crescent". -/
theorem C3_counterexample :
    moonPhaseLabel 45 = "New Moon"
    ∧ specPhase8 45 = "Waxing Crescent"
    ∧ moonPhaseLabel 45 ≠ specPhase8 45 := by
  have h1 : moonPhaseLabel 45 = "New Moon" := by
    rw [moonPhaseLabel, moonPhaseIndex_eq_of 45 0 (by norm_num) (by norm_num)]
    rfl
  have hfl : (⌊((45 : Rat) + 45 / 2) / 45⌋ : Int) = 1 := by
    rw [Int.floor_eq_iff]
    norm_num
  have h2 : specPhase8 45 = "Waxing Crescent" := by
    rw [specPhase8, hfl]
    rfl
  exact ⟨h1, h2, by rw [h1, h2]; decide⟩

/-- A planet whose rise/set search fails contributes the same (nothing)
as a planet with an empty successful search; every other planet's
contribution is untouched. -/
theorem planetVisible_clearPlanet (E : Eph) (p : Planet) (err : PyErr)
    (h : E.transF p = .error err) (sr ss : Option PyDateTime) (sys : Tz)
    (q : Planet) :
    planetVisible (clearPlanet E p) sr ss sys q = planetVisible E sr ss sys q := by
  by_cases hq : q = p
  · subst hq
    simp [planetVisible, clearPlanet, h, planetScan]
  · simp [planetVisible, clearPlanet, hq]

/-- C1 amended: inside `visible_planets` a failure of one planet's
computation is caught at that planet's scope: the aggregate list equals
the one obtained with that planet's search replaced by an empty
successful search, so the other planets' entries are unaffected.  (In
`check_conjunctions`, by contrast, a body failure propagates out of
`get_astronomical_events`.) -/
theorem C1_visible_planets_isolation (E : Eph) (sys : Tz) (p : Planet)
    (err : PyErr) (h : E.transF p = .error err) :
    visible_planets E sys = visible_planets (clearPlanet E p) sys := by
  unfold visible_planets
  have hfun : (fun q => planetVisible (clearPlanet E p)
        (get_sunrise_sunset (clearPlanet E p).sunTrans (clearPlanet E p).tz).1
        (get_sunrise_sunset (clearPlanet E p).sunTrans (clearPlanet E p).tz).2
        sys q)
      = (fun q => planetVisible E
        (get_sunrise_sunset E.sunTrans E.tz).1
        (get_sunrise_sunset E.sunTrans E.tz).2 sys q) :=
    funext fun q => planetVisible_clearPlanet E p err h _ _ sys q
  rw [hfun]

/-- C1 amended witness: isolation applied at a concrete environment in
which the Mars search fails. -/
theorem C1_visible_planets_isolation_witness :
    EFindFails.transF Planet.mars = .error .ephemerisError
    ∧ visible_planets EFindFails sysTz =
        visible_planets (clearPlanet EFindFails Planet.mars) sysTz :=
  ⟨rfl, C1_visible_planets_isolation EFindFails sysTz Planet.mars
    .ephemerisError rfl⟩

/-- When the Sun's sunrise value available to the per-planet loop is
`None` or naive (the timezone lookup failed, or the Sun did not both rise
and set), the loop can never emit an entry: as soon as a planet has both
a rise and a set, the visibility test raises (`AttributeError` on
`None.tzinfo`, or `TypeError` comparing aware with naive), the exception
is caught, and the planet is skipped. -/
theorem planetScan_noTz (pname : String)
    (obs : Instant → Except PyErr (Rat × Rat)) (sr ss : Option PyDateTime)
    (sys : Tz) (h : sr = none ∨ ∃ x, sr = some (.naive x)) :
    ∀ (ts : List (Instant × Bool)) (st : ScanSt),
      (planetScan pname obs sr ss sys ts st).1 = [] := by
  intro ts
  induction ts with
  | nil => intro st; rfl
  | cons x rest ih =>
    intro st
    obtain ⟨t, r⟩ := x
    have hstep : ∀ st1 ent, scanStep pname obs sr ss sys st t r = .ok (st1, ent) →
        ent = none := by
      intro st1 ent hs
      unfold scanStep at hs
      split at hs
      · exact absurd hs (by simp)
      · split at hs
        · split at hs
          · exact absurd hs (by simp)
          · rename_i rt stt hrt hstt cond hv
            rcases h with rfl | ⟨x, rfl⟩
            · simp [visCond, tzinfoOf] at hv
            · simp [visCond, tzinfoOf, pyLtOpt, astimezone, dtLt] at hv
        · cases hs
          rfl
    cases hs2 : scanStep pname obs sr ss sys st t r with
    | error e => simp [planetScan, hs2]
    | ok pr =>
      obtain ⟨st1, ent⟩ := pr
      have hent : ent = none := hstep st1 ent hs2
      subst hent
      simp [planetScan, hs2, ih st1]

/-- The sunrise value handed to the per-planet loop is `None` or naive
whenever no timezone was resolved. -/
theorem get_sunrise_sunset_noTz (sunTrans : List (Instant × Bool)) :
    (get_sunrise_sunset sunTrans none).1 = none
    ∨ ∃ x, (get_sunrise_sunset sunTrans none).1 = some (.naive x) := by
  unfold get_sunrise_sunset
  rcases hlr : lastRiseSet sunTrans with ⟨rr, sv⟩
  cases rr <;> cases sv <;> simp

/-- C7 amended: when the timezone lookup returns `None`, `visible_planets`
silently drops every candidate planet — the result is empty (and no
exception escapes), instead of the spec's "include all candidates". -/
theorem C7_no_timezone_drops_all (E : Eph) (sys : Tz) (h : E.tz = none) :
    visible_planets E sys = [] := by
  unfold visible_planets
  rw [List.flatMap_eq_nil_iff]
  intro q hq
  unfold planetVisible
  cases htr : E.transF q with
  | error e => rfl
  | ok ts =>
    simp only []
    have hsr := get_sunrise_sunset_noTz E.sunTrans
    rw [← h] at hsr
    exact planetScan_noTz q.pyName (E.altaz q) _ _ sys hsr ts initSt

/-- C7 amended witness: the drop-all behaviour at a concrete environment
with an unresolvable timezone. -/
theorem C7_no_timezone_drops_all_witness :
    ENoTz.tz = none ∧ visible_planets ENoTz sysTz = [] :=
  ⟨rfl, C7_no_timezone_drops_all ENoTz sysTz rfl⟩

/-- Any entry emitted by one loop iteration carries both a rise and a set
instant: the append is guarded by `if rise_time and set_time`. -/
theorem scanStep_entry_isSome {pname : String}
    {obs : Instant → Except PyErr (Rat × Rat)} {sr ss : Option PyDateTime}
    {sys : Tz} {st : ScanSt} {t : Instant} {r : Bool} {st1 : ScanSt}
    {e : Entry} (hs : scanStep pname obs sr ss sys st t r = .ok (st1, some e)) :
    e.rise_time.isSome ∧ e.set_time.isSome := by
  unfold scanStep at hs
  split at hs
  · exact absurd hs (by simp)
  · split at hs
    · split at hs
      · exact absurd hs (by simp)
      · rename_i rt stt hrt hstt cond hv
        split at hs
        · cases hs
          simp
        · exact absurd hs (by simp)
    · cases hs

/-- Every entry of the per-planet loop has both a rise and a set instant. -/
theorem planetScan_entries_isSome (pname : String)
    (obs : Instant → Except PyErr (Rat × Rat)) (sr ss : Option PyDateTime)
    (sys : Tz) :
    ∀ (ts : List (Instant × Bool)) (st : ScanSt) (e : Entry),
      e ∈ (planetScan pname obs sr ss sys ts st).1 →
      e.rise_time.isSome ∧ e.set_time.isSome := by
  intro ts
  induction ts with
  | nil => intro st e he; simp [planetScan] at he
  | cons x rest ih =>
    intro st e he
    obtain ⟨t, r⟩ := x
    cases hs : scanStep pname obs sr ss sys st t r with
    | error e2 => simp [planetScan, hs] at he
    | ok pr =>
      obtain ⟨st1, ent⟩ := pr
      simp only [planetScan, hs, List.mem_append] at he
      rcases he with he | he
      · cases ent with
        | none => simp at he
        | some e2 =>
          simp at he
          subst he
          exact scanStep_entry_isSome hs
      · exact ih st1 e he

/-- If every transition of the day is a rise, the loop never completes a
rise/set pair and emits nothing. -/
theorem planetScan_all_rises (pname : String)
    (obs : Instant → Except PyErr (Rat × Rat)) (sr ss : Option PyDateTime)
    (sys : Tz) :
    ∀ (ts : List (Instant × Bool)), (∀ x ∈ ts, x.2 = true) →
      ∀ (st : ScanSt), st.set_time = none →
      (planetScan pname obs sr ss sys ts st).1 = [] := by
  intro ts
  induction ts with
  | nil => intro _ st _; rfl
  | cons x rest ih =>
    intro hall st hst
    obtain ⟨t, r⟩ := x
    have hr : r = true := hall (t, r) (by simp)
    subst hr
    cases hob : obs t with
    | error e => simp [planetScan, scanStep, updateSt, hob]
    | ok aa =>
      simp only [planetScan, scanStep, updateSt, hob, hst]
      exact ih (fun x hx => hall x (List.mem_cons_of_mem _ hx)) _ rfl

/-- If every transition of the day is a set, the loop never completes a
rise/set pair and emits nothing. -/
theorem planetScan_all_sets (pname : String)
    (obs : Instant → Except PyErr (Rat × Rat)) (sr ss : Option PyDateTime)
    (sys : Tz) :
    ∀ (ts : List (Instant × Bool)), (∀ x ∈ ts, x.2 = false) →
      ∀ (st : ScanSt), st.rise_time = none →
      (planetScan pname obs sr ss sys ts st).1 = [] := by
  intro ts
  induction ts with
  | nil => intro _ st _; rfl
  | cons x rest ih =>
    intro hall st hst
    obtain ⟨t, r⟩ := x
    have hr : r = false := hall (t, r) (by simp)
    subst hr
    cases hob : obs t with
    | error e => simp [planetScan, scanStep, updateSt, hob]
    | ok aa =>
      simp only [planetScan, scanStep, updateSt, hob, hst]
      exact ih (fun x hx => hall x (List.mem_cons_of_mem _ hx)) _ rfl

/-- C10: starting from the all-`None` state, a planet entry is emitted
only after both a rise and a set instant have been recorded — every
emitted entry has a non-null rise time and a non-null set time — and a
transition list consisting only of rises, or only of sets, produces no
entry at all. -/
theorem C10_no_partial_window (pname : String)
    (obs : Instant → Except PyErr (Rat × Rat)) (sr ss : Option PyDateTime)
    (sys : Tz) (ts : List (Instant × Bool)) :
    (∀ e ∈ (planetScan pname obs sr ss sys ts initSt).1,
        e.rise_time.isSome ∧ e.set_time.isSome)
    ∧ ((∀ x ∈ ts, x.2 = true) →
        (planetScan pname obs sr ss sys ts initSt).1 = [])
    ∧ ((∀ x ∈ ts, x.2 = false) →
        (planetScan pname obs sr ss sys ts initSt).1 = []) :=
  ⟨fun e he => planetScan_entries_isSome pname obs sr ss sys ts initSt e he,
    fun hall => planetScan_all_rises pname obs sr ss sys ts hall initSt rfl,
    fun hall => planetScan_all_sets pname obs sr ss sys ts hall initSt rfl⟩

/-- C10 witness: a day with a single rise transition emits no entry. -/
theorem C10_no_partial_window_witness :
    (∀ x ∈ [((0 : Instant), true)], x.2 = true)
    ∧ (planetScan "Mars" (fun _ => .ok (0, 0)) (some (.aware tz0 21600))
        (some (.aware tz0 64800)) sysTz [((0 : Instant), true)] initSt).1 = [] :=
  ⟨by decide,
    (C10_no_partial_window "Mars" (fun _ => .ok (0, 0))
      (some (.aware tz0 21600)) (some (.aware tz0 64800)) sysTz
      [((0 : Instant), true)]).2.1 (by decide)⟩

/-- C4 amended: with an aware local sunrise and sunset available, a
planet with one rise followed by one set is emitted exactly when its
**rise** instant (converted to local time) falls before local sunrise or
after local sunset; the set instant is never consulted by the filter. -/
theorem C4_rise_only_filter (z sys : Tz) (srs sss r s : Instant)
    (alt az : Instant → Rat) (pname : String) :
    planetScan pname (fun t => .ok (alt t, az t)) (some (.aware z srs))
      (some (.aware z sss)) sys [(r, true), (s, false)] initSt
    = (if r < srs ∨ sss < r then
         [⟨pname, some r, some s, some (alt r), some (az r), some (alt s),
            some (az s)⟩]
       else ([] : List Entry), none) := by
  by_cases h1 : r < srs <;> by_cases h2 : sss < r <;>
    simp [planetScan, scanStep, updateSt, visCond, tzinfoOf, astimezone,
      pyLtOpt, pyGtOpt, dtLt, initSt, h1, h2]
